import Mathlib

/-!
Shallow embedding of `awslabs/eks_mcp_server/eks_cluster_handler.py`
(class `EksClusterHandler`, operation `list_clusters`).

The Python code is a thin adapter: it registers one MCP tool, builds a
parameter bag from three optional inputs, calls the upstream EKS
`list_clusters` API through a boto3 client obtained from a factory, and
maps the upstream result (or any raised exception) into a
`ListClustersResponse` envelope, emitting log entries along the way.

External collaborators (the client factory and the upstream call) are
modelled as explicit data: a `Collaborators` record whose fields give the
behaviour of `AwsHelper.create_boto3_client('eks')` and of the client's
`list_clusters(**params)` call.  A raised Python exception is modelled as
`Except.error msg` where `msg` is `str(e)`.  Log emission is modelled by
returning the ordered list of `(level, message)` pairs passed to
`log_with_request_id`; the `ctx` argument is opaque to the handler and is
not modelled.
-/

namespace EksMcp

/-- `LogLevel` from `logging_helper.py`, restricted to the two levels the
handler uses. -/
inductive LogLevel where
  | INFO
  | ERROR
  deriving DecidableEq, Repr

/-- A log emission: the `(level, message)` pair passed to
`log_with_request_id (ctx, level, message)`. -/
abbrev LogEntry := LogLevel × String

/-- `mcp.types.TextContent`: a display message with a `type` tag and text. -/
structure TextContent where
  type : String
  text : String
  deriving DecidableEq, Repr

/-- `ListClustersResponse` from `models.py` as used by the handler:
the response envelope with error flag, content messages, cluster names,
count and optional continuation token. -/
structure ListClustersResponse where
  isError : Bool
  content : List TextContent
  clusters : List String
  count : Nat
  next_token : Option String
  deriving DecidableEq, Repr

/-- A value stored in the Python parameter dict built at lines 79-85:
`maxResults` holds an int, `nextToken` a string, `include` a list of
strings. -/
inductive ParamValue where
  | int (i : Int)
  | str (s : String)
  | strList (l : List String)
  deriving DecidableEq, Repr

/-- The parameter bag passed as keyword arguments to the upstream call:
a dict modelled as an ordered list of key/value pairs, in insertion
order. -/
abbrev ParamBag := List (String × ParamValue)

/-- The upstream EKS `list_clusters` API result dict.  `clusters` is an
`Option` because the handler accesses `response['clusters']` (raising
`KeyError` if absent) while `response.get('nextToken')` tolerates
absence. -/
structure UpstreamResult where
  clusters : Option (List String)
  nextToken : Option String
  deriving DecidableEq, Repr

/-- The boto3 EKS client: its `list_clusters(**params)` method either
returns a result dict or raises an exception carrying `str(e)`. -/
structure EksClient where
  list_clusters_call : ParamBag → Except String UpstreamResult

/-- The external collaborators of one invocation:
`AwsHelper.create_boto3_client('eks')` either returns a client or raises. -/
structure Collaborators where
  create_boto3_client : Except String EksClient

/-- Lines 79-85: build the parameter dict, inserting a key only when the
corresponding optional argument is not `None`, in source order
(`maxResults`, then `nextToken`, then `include`). -/
def buildParams (max_results : Option Int) (next_token : Option String)
    (inc : Option (List String)) : ParamBag :=
  (match max_results with
    | some v => [("maxResults", ParamValue.int v)]
    | none => [])
  ++ (match next_token with
    | some v => [("nextToken", ParamValue.str v)]
    | none => [])
  ++ (match inc with
    | some v => [("include", ParamValue.strList v)]
    | none => [])

/-- The success envelope built at lines 95-106. -/
def successResponse (cluster_names : List String) (tok : Option String) :
    ListClustersResponse :=
  { isError := false
    content := [{ type := "text"
                  text := "Successfully listed " ++ toString cluster_names.length
                          ++ " EKS clusters" }]
    clusters := cluster_names
    count := cluster_names.length
    next_token := tok }

/-- The error envelope built at lines 114-120 from the already-formatted
error message. -/
def errorResponse (error_msg : String) : ListClustersResponse :=
  { isError := true
    content := [{ type := "text", text := error_msg }]
    clusters := []
    count := 0
    next_token := none }

/-- Result of running the `try` block body (lines 73-106): the log entries
emitted inside the block, the parameter bag forwarded to the upstream call
(`none` when the client factory raised before the call), and either the
success envelope or the raised exception's `str(e)`. -/
structure BodyResult where
  logs : List LogEntry
  forwarded : Option ParamBag
  outcome : Except String ListClustersResponse
  deriving Repr

/-- The `try` block body of `list_clusters` (lines 73-106): log the start
entry, obtain the client, build the parameter bag, call upstream, read
`response['clusters']` (a missing key raises `KeyError('clusters')`,
whose `str` is `'clusters'` quoted), read `response.get('nextToken')`,
log the count found, and build the success envelope. -/
def listClustersBody (c : Collaborators) (max_results : Option Int)
    (next_token : Option String) (inc : Option (List String)) : BodyResult :=
  let startLog : LogEntry := (LogLevel.INFO, "Listing EKS clusters")
  match c.create_boto3_client with
  | Except.error e => ⟨[startLog], none, Except.error e⟩
  | Except.ok eks_client =>
    let params := buildParams max_results next_token inc
    match eks_client.list_clusters_call params with
    | Except.error e => ⟨[startLog], some params, Except.error e⟩
    | Except.ok response =>
      match response.clusters with
      | none =>
        ⟨[startLog], some params, Except.error "\x27clusters\x27"⟩
      | some cluster_names =>
        ⟨[startLog,
          (LogLevel.INFO, "Found " ++ toString cluster_names.length
                          ++ " EKS clusters")],
         some params,
         Except.ok (successResponse cluster_names response.nextToken)⟩

/-- One full invocation: the returned envelope, every log entry emitted,
and the parameter bag forwarded upstream (if the call was reached). -/
structure Execution where
  response : ListClustersResponse
  logs : List LogEntry
  forwarded : Option ParamBag
  deriving Repr

/-- `list_clusters` (lines 42-120): run the `try` block body; on any
exception `e`, format `error_msg = 'Failed to list EKS clusters: ' ++
str(e)`, log it at error level, and return the error envelope
(lines 108-120). -/
def list_clusters (c : Collaborators) (max_results : Option Int)
    (next_token : Option String) (inc : Option (List String)) : Execution :=
  let b := listClustersBody c max_results next_token inc
  match b.outcome with
  | Except.ok resp => ⟨resp, b.logs, b.forwarded⟩
  | Except.error e =>
    let error_msg := "Failed to list EKS clusters: " ++ e
    ⟨errorResponse error_msg, b.logs ++ [(LogLevel.ERROR, error_msg)],
     b.forwarded⟩

/-- A tool registered with the host dispatcher; the handler registers its
`list_clusters` routine. -/
inductive RegisteredOp where
  | listClustersOp

/-- The host MCP dispatcher's registration state: the ordered list of
`(name, routine)` registrations made via `mcp.tool(name=...)`. -/
structure Dispatcher where
  tools : List (String × RegisteredOp)

/-- `mcp.tool(name)(routine)`: append one registration. -/
def Dispatcher.registerTool (d : Dispatcher) (name : String)
    (op : RegisteredOp) : Dispatcher :=
  ⟨d.tools ++ [(name, op)]⟩

/-- `EksClusterHandler.__init__` (lines 31-40): store the dispatcher and
register the single tool `list_clusters` bound to the handling routine. -/
def handlerInit (d : Dispatcher) : Dispatcher :=
  d.registerTool "list_clusters" RegisteredOp.listClustersOp

/-- The observable behaviour of the collaborators at a given parameter
bag: either the factory raises, or it yields a client whose call on that
bag returns the given outcome.  Two collaborator pairs with the same
behaviour model "the same returned record or the same raised failure". -/
def collabBehaviour (c : Collaborators) (bag : ParamBag) :
    Except String (Except String UpstreamResult) :=
  match c.create_boto3_client with
  | Except.error e => Except.error e
  | Except.ok client => Except.ok (client.list_clusters_call bag)

/-- A client whose upstream call returns one cluster and a continuation
token (the behaviour mocked in the repository's combined-parameters
test). -/
def demoClient : EksClient :=
  ⟨fun _ => Except.ok ⟨some ["cluster1"], some "next_page_token"⟩⟩

/-- Collaborators whose factory returns `demoClient`. -/
def demoCollab : Collaborators := ⟨Except.ok demoClient⟩

/-- A second collaborator pair, built from a syntactically distinct client
with the same behaviour as `demoClient`. -/
def demoCollabTwin : Collaborators :=
  ⟨Except.ok ⟨fun _ => Except.ok ⟨some ["cluster1"], some "next_page_token"⟩⟩⟩

/-- A client whose upstream call raises `AWS API Error` (the behaviour
mocked in the repository's failure test). -/
def failingClient : EksClient := ⟨fun _ => Except.error "AWS API Error"⟩

/-- Collaborators whose factory returns `failingClient`. -/
def failingCollab : Collaborators := ⟨Except.ok failingClient⟩

/-- A client whose upstream call returns a record without the `clusters`
key. -/
def missingKeyClient : EksClient := ⟨fun _ => Except.ok ⟨none, some "tok"⟩⟩

/-- Collaborators whose factory returns `missingKeyClient`. -/
def missingKeyCollab : Collaborators := ⟨Except.ok missingKeyClient⟩

/-- A client whose upstream call returns clusters but no `nextToken`. -/
def noTokenClient : EksClient := ⟨fun _ => Except.ok ⟨some ["cluster1"], none⟩⟩

/-- Collaborators whose factory returns `noTokenClient`. -/
def noTokenCollab : Collaborators := ⟨Except.ok noTokenClient⟩

end EksMcp

namespace EksMcp

/-- Both arms of the catch at lines 108-120 preserve the bag that the body
forwarded upstream. -/
theorem forwarded_eq_body (c : Collaborators) (mr : Option Int)
    (nt : Option String) (inc : Option (List String)) :
    (list_clusters c mr nt inc).forwarded =
      (listClustersBody c mr nt inc).forwarded := by
  unfold list_clusters
  rcases h : (listClustersBody c mr nt inc).outcome with e | r <;> simp [h]

/-- Once the client factory succeeds, the body always forwards exactly the
bag built by `buildParams`. -/
theorem body_forwarded_of_client_ok (c : Collaborators) (client : EksClient)
    (h : c.create_boto3_client = Except.ok client) (mr : Option Int)
    (nt : Option String) (inc : Option (List String)) :
    (listClustersBody c mr nt inc).forwarded =
      some (buildParams mr nt inc) := by
  unfold listClustersBody
  rw [h]
  rcases hc : client.list_clusters_call (buildParams mr nt inc) with e | r
  · simp [hc]
  · rcases hr : r.clusters with _ | cs <;> simp [hc, hr]

end EksMcp

namespace EksMcp

/-- Full case analysis of one invocation: either some step of the body
raised `e` and the invocation produced the error envelope plus an
error-level completion log, or the body succeeded on a cluster list `cs`
and token `t` and the invocation produced the success envelope plus an
info-level completion log. -/
theorem list_clusters_cases (c : Collaborators) (mr : Option Int)
    (nt : Option String) (inc : Option (List String)) :
    (∃ e fw, list_clusters c mr nt inc =
        ⟨errorResponse ("Failed to list EKS clusters: " ++ e),
         [(LogLevel.INFO, "Listing EKS clusters"),
          (LogLevel.ERROR, "Failed to list EKS clusters: " ++ e)],
         fw⟩) ∨
    (∃ cs t, list_clusters c mr nt inc =
        ⟨successResponse cs t,
         [(LogLevel.INFO, "Listing EKS clusters"),
          (LogLevel.INFO, "Found " ++ toString (List.length cs)
                          ++ " EKS clusters")],
         some (buildParams mr nt inc)⟩) := by
  rcases hc : c.create_boto3_client with e | client
  · exact Or.inl ⟨e, none, by simp [list_clusters, listClustersBody, hc]⟩
  · rcases hcall : client.list_clusters_call (buildParams mr nt inc) with e | r
    · exact Or.inl ⟨e, some (buildParams mr nt inc),
        by simp [list_clusters, listClustersBody, hc, hcall]⟩
    · rcases hcl : r.clusters with _ | cs
      · exact Or.inl ⟨"\x27clusters\x27", some (buildParams mr nt inc),
          by simp [list_clusters, listClustersBody, hc, hcall, hcl]⟩
      · exact Or.inr ⟨cs, r.nextToken,
          by simp [list_clusters, listClustersBody, hc, hcall, hcl]⟩

end EksMcp

namespace EksMcp

/-- Claim C1: whenever the client factory succeeds, the bag forwarded to
the upstream call is exactly `buildParams`, and a key/value pair lies in
that bag exactly when the corresponding optional input was supplied, with
the tool-level name renamed to the upstream key and the value unchanged;
no key exists for an unsupplied field. -/
theorem c1_forwarded_bag_exact (c : Collaborators) (client : EksClient)
    (h : c.create_boto3_client = Except.ok client)
    (mr : Option Int) (nt : Option String) (inc : Option (List String))
    (k : String) (v : ParamValue) :
    (list_clusters c mr nt inc).forwarded = some (buildParams mr nt inc) ∧
    ((k, v) ∈ buildParams mr nt inc ↔
      ((k = "maxResults" ∧ ∃ i, mr = some i ∧ v = ParamValue.int i) ∨
       (k = "nextToken" ∧ ∃ s, nt = some s ∧ v = ParamValue.str s) ∨
       (k = "include" ∧ ∃ l, inc = some l ∧ v = ParamValue.strList l))) := by
  refine ⟨(forwarded_eq_body c mr nt inc).trans
    (body_forwarded_of_client_ok c client h mr nt inc), ?_⟩
  rcases mr with _ | i <;> rcases nt with _ | s <;> rcases inc with _ | l <;>
    simp [buildParams, Prod.ext_iff]

/-- Witness for C1: the factory of `demoCollab` succeeds, and the
invocation with all three inputs supplied forwards the built bag. -/
theorem c1_forwarded_bag_exact_witness :
    demoCollab.create_boto3_client = Except.ok demoClient ∧
    (list_clusters demoCollab (some 10) (some "current_token")
        (some ["all"])).forwarded =
      some [("maxResults", ParamValue.int 10),
            ("nextToken", ParamValue.str "current_token"),
            ("include", ParamValue.strList ["all"])] :=
  ⟨rfl, (c1_forwarded_bag_exact demoCollab demoClient rfl (some 10)
    (some "current_token") (some ["all"]) "maxResults" (ParamValue.int 10)).1⟩

/-- Claim C2: when the factory succeeds and the upstream call returns a
record with cluster list `cs` and token field `t`, the invocation returns
the envelope with `isError = false`, exactly one text message
`Successfully listed (length cs) EKS clusters`, `clusters = cs`,
`count = length cs`, and `next_token = t`. -/
theorem c2_success_envelope (c : Collaborators) (client : EksClient)
    (cs : List String) (t : Option String)
    (mr : Option Int) (nt : Option String) (inc : Option (List String))
    (h1 : c.create_boto3_client = Except.ok client)
    (h2 : client.list_clusters_call (buildParams mr nt inc) =
      Except.ok ⟨some cs, t⟩) :
    (list_clusters c mr nt inc).response =
      { isError := false
        content := [{ type := "text"
                      text := "Successfully listed " ++ toString (List.length cs)
                              ++ " EKS clusters" }]
        clusters := cs
        count := List.length cs
        next_token := t } := by
  simp [list_clusters, listClustersBody, h1, h2, successResponse]

/-- Witness for C2: `demoCollab` returns one cluster and a token, and the
envelope fields are as claimed. -/
theorem c2_success_envelope_witness :
    demoCollab.create_boto3_client = Except.ok demoClient ∧
    (list_clusters demoCollab (some 10) (some "current_token")
        (some ["all"])).response =
      { isError := false
        content := [{ type := "text"
                      text := "Successfully listed 1 EKS clusters" }]
        clusters := ["cluster1"]
        count := 1
        next_token := some "next_page_token" } :=
  ⟨rfl, c2_success_envelope demoCollab demoClient ["cluster1"]
    (some "next_page_token") (some 10) (some "current_token") (some ["all"])
    rfl rfl⟩

/-- Claim C3: on a failure `e` raised by the client factory or by the
upstream call, the invocation returns the envelope with `isError = true`,
empty clusters, zero count, no token, and exactly one text message
`Failed to list EKS clusters: e`, which is also the message logged at
error level. -/
theorem c3_error_envelope (c : Collaborators) (e : String)
    (mr : Option Int) (nt : Option String) (inc : Option (List String))
    (h : c.create_boto3_client = Except.error e ∨
         ∃ client, c.create_boto3_client = Except.ok client ∧
           client.list_clusters_call (buildParams mr nt inc) =
             Except.error e) :
    (list_clusters c mr nt inc).response =
      { isError := true
        content := [{ type := "text"
                      text := "Failed to list EKS clusters: " ++ e }]
        clusters := []
        count := 0
        next_token := none } ∧
    (list_clusters c mr nt inc).logs =
      [(LogLevel.INFO, "Listing EKS clusters"),
       (LogLevel.ERROR, "Failed to list EKS clusters: " ++ e)] := by
  rcases h with h | ⟨client, h1, h2⟩
  · constructor <;> simp [list_clusters, listClustersBody, h, errorResponse]
  · constructor <;>
      simp [list_clusters, listClustersBody, h1, h2, errorResponse]

/-- Witness for C3: the upstream call of `failingCollab` raises
`AWS API Error`, and the envelope and logs are as claimed. -/
theorem c3_error_envelope_witness :
    (failingCollab.create_boto3_client = Except.error "AWS API Error" ∨
      ∃ client, failingCollab.create_boto3_client = Except.ok client ∧
        client.list_clusters_call (buildParams none none none) =
          Except.error "AWS API Error") ∧
    (list_clusters failingCollab none none none).response =
      { isError := true
        content := [{ type := "text"
                      text := "Failed to list EKS clusters: AWS API Error" }]
        clusters := []
        count := 0
        next_token := none } :=
  ⟨Or.inr ⟨failingClient, rfl, rfl⟩,
   (c3_error_envelope failingCollab "AWS API Error" none none none
     (Or.inr ⟨failingClient, rfl, rfl⟩)).1⟩

/-- Claim C4: every envelope returned by `list_clusters`, on the success
or the error path, satisfies `count = length clusters`. -/
theorem c4_count_eq_length (c : Collaborators) (mr : Option Int)
    (nt : Option String) (inc : Option (List String)) :
    (list_clusters c mr nt inc).response.count =
      (list_clusters c mr nt inc).response.clusters.length := by
  rcases list_clusters_cases c mr nt inc with ⟨e, fw, hx⟩ | ⟨cs, t, hx⟩ <;>
    rw [hx] <;> simp [errorResponse, successResponse]

end EksMcp

namespace EksMcp

/-- Claim C5: for every collaborator behaviour and parameter combination,
the invocation returns an envelope: either the body succeeded and its
envelope is returned, or the body raised some exception `e` and the catch
handler returns the error envelope instead of propagating `e`. -/
theorem c5_always_returns_envelope (c : Collaborators) (mr : Option Int)
    (nt : Option String) (inc : Option (List String)) :
    (∃ resp, (listClustersBody c mr nt inc).outcome = Except.ok resp ∧
       (list_clusters c mr nt inc).response = resp) ∨
    (∃ e, (listClustersBody c mr nt inc).outcome = Except.error e ∧
       (list_clusters c mr nt inc).response =
         errorResponse ("Failed to list EKS clusters: " ++ e)) := by
  rcases hb : (listClustersBody c mr nt inc).outcome with e | resp
  · exact Or.inr ⟨e, rfl, by simp [list_clusters, hb]⟩
  · exact Or.inl ⟨resp, rfl, by simp [list_clusters, hb]⟩

/-- Claim C6: every invocation emits exactly two log entries: the first is
the informational start entry, and the second is informational exactly
when the returned envelope is a success and error-level exactly when it is
an error. -/
theorem c6_exactly_two_logs (c : Collaborators) (mr : Option Int)
    (nt : Option String) (inc : Option (List String)) :
    ∃ lvl msg, (list_clusters c mr nt inc).logs =
        [(LogLevel.INFO, "Listing EKS clusters"), (lvl, msg)] ∧
      ((list_clusters c mr nt inc).response.isError = false →
        lvl = LogLevel.INFO) ∧
      ((list_clusters c mr nt inc).response.isError = true →
        lvl = LogLevel.ERROR) := by
  rcases list_clusters_cases c mr nt inc with ⟨e, fw, hx⟩ | ⟨cs, t, hx⟩
  · refine ⟨LogLevel.ERROR, "Failed to list EKS clusters: " ++ e,
      ?_, ?_, ?_⟩ <;> rw [hx] <;> simp [errorResponse]
  · refine ⟨LogLevel.INFO, "Found " ++ toString (List.length cs)
      ++ " EKS clusters", ?_, ?_, ?_⟩ <;> rw [hx] <;> simp [successResponse]

/-- Claim C7: constructing the handler appends exactly one registration to
the dispatcher, under the fixed name `list_clusters`, bound to the
handling routine; the dispatcher state is otherwise unchanged. -/
theorem c7_registers_single_tool (d : Dispatcher) :
    (handlerInit d).tools =
      d.tools ++ [("list_clusters", RegisteredOp.listClustersOp)] := rfl

/-- Claim C8: no client-side validation: for every integer `max_results`
value `v` (including values outside the range 1 to 100) and every
`include` list `l` (including values other than the list holding `all`),
the values are forwarded to the upstream call unchanged inside the built
bag. -/
theorem c8_no_validation (c : Collaborators) (client : EksClient)
    (h : c.create_boto3_client = Except.ok client)
    (v : Int) (l : List String) (nt : Option String) :
    (list_clusters c (some v) nt (some l)).forwarded =
      some (buildParams (some v) nt (some l)) ∧
    ("maxResults", ParamValue.int v) ∈ buildParams (some v) nt (some l) ∧
    ("include", ParamValue.strList l) ∈ buildParams (some v) nt (some l) := by
  refine ⟨(forwarded_eq_body c (some v) nt (some l)).trans
    (body_forwarded_of_client_ok c client h (some v) nt (some l)),
    ?_, ?_⟩ <;> rcases nt with _ | s <;> simp [buildParams]

/-- Witness for C8: an out-of-range `max_results` of 1000 and an
off-vocabulary `include` list are forwarded unchanged. -/
theorem c8_no_validation_witness :
    demoCollab.create_boto3_client = Except.ok demoClient ∧
    ("maxResults", ParamValue.int 1000) ∈
      buildParams (some 1000) none (some ["bogus"]) ∧
    ("include", ParamValue.strList ["bogus"]) ∈
      buildParams (some 1000) none (some ["bogus"]) :=
  ⟨rfl, (c8_no_validation demoCollab demoClient rfl 1000 ["bogus"] none).2⟩

/-- Claim C9: the two optional fields of the upstream record are treated
asymmetrically: a record lacking the `clusters` key yields the error
envelope, while a record with clusters but no `nextToken` yields a
success envelope whose token is absent. -/
theorem c9_missing_key_asymmetry (c₁ c₂ : Collaborators)
    (cl₁ cl₂ : EksClient) (mr : Option Int) (nt : Option String)
    (inc : Option (List String)) (t : Option String) (cs : List String)
    (h1 : c₁.create_boto3_client = Except.ok cl₁)
    (h2 : cl₁.list_clusters_call (buildParams mr nt inc) =
      Except.ok ⟨none, t⟩)
    (h3 : c₂.create_boto3_client = Except.ok cl₂)
    (h4 : cl₂.list_clusters_call (buildParams mr nt inc) =
      Except.ok ⟨some cs, none⟩) :
    (list_clusters c₁ mr nt inc).response.isError = true ∧
    (list_clusters c₂ mr nt inc).response.isError = false ∧
    (list_clusters c₂ mr nt inc).response.next_token = none := by
  refine ⟨?_, ?_, ?_⟩ <;>
    simp [list_clusters, listClustersBody, h1, h2, h3, h4,
      errorResponse, successResponse]

/-- Witness for C9: `missingKeyCollab` yields an error envelope while
`noTokenCollab` yields a success envelope without a token. -/
theorem c9_missing_key_asymmetry_witness :
    missingKeyCollab.create_boto3_client = Except.ok missingKeyClient ∧
    (list_clusters missingKeyCollab none none none).response.isError
      = true ∧
    (list_clusters noTokenCollab none none none).response.isError
      = false ∧
    (list_clusters noTokenCollab none none none).response.next_token
      = none :=
  ⟨rfl, c9_missing_key_asymmetry missingKeyCollab noTokenCollab
    missingKeyClient noTokenClient none none none (some "tok") ["cluster1"]
    rfl rfl rfl rfl⟩

end EksMcp

namespace EksMcp

/-- Claim C10: `list_clusters` is deterministic in its inputs and
collaborators: two invocations with the same parameters whose client
factory and upstream call exhibit the same observable behaviour (the same
returned record or the same raised failure) produce identical envelopes,
identical logs and identical forwarded bags. -/
theorem c10_deterministic (c₁ c₂ : Collaborators) (mr : Option Int)
    (nt : Option String) (inc : Option (List String))
    (h : collabBehaviour c₁ (buildParams mr nt inc) =
         collabBehaviour c₂ (buildParams mr nt inc)) :
    list_clusters c₁ mr nt inc = list_clusters c₂ mr nt inc := by
  unfold collabBehaviour at h
  rcases h1 : c₁.create_boto3_client with e₁ | cl₁ <;>
    rcases h2 : c₂.create_boto3_client with e₂ | cl₂ <;>
    rw [h1, h2] at h <;> simp at h
  · rw [h] at h1
    simp [list_clusters, listClustersBody, h1, h2]
  · simp only [list_clusters, listClustersBody, h1, h2]
    rw [← h]

/-- Witness for C10: `demoCollab` and its twin have the same behaviour and
produce identical executions on the no-parameter invocation. -/
theorem c10_deterministic_witness :
    collabBehaviour demoCollab (buildParams none none none) =
      collabBehaviour demoCollabTwin (buildParams none none none) ∧
    list_clusters demoCollab none none none =
      list_clusters demoCollabTwin none none none :=
  ⟨rfl, c10_deterministic demoCollab demoCollabTwin none none none rfl⟩

end EksMcp
